import Mathlib

/-!
Verification development for the blockchain dashboard repository.

The repository has two near-duplicate API route handlers
(`src/pages/api/update-data.js`, the refresh endpoint, and the
blockchain-data reader endpoint found in `src/unnamed/part_000`) plus a
presentation component (`src/components/BlockchainCard.js`).  Each source
file is embedded in its own namespace, keeping the source duplication so
the equivalence of the duplicated logic can be stated as a theorem.

Modelling conventions:
* JavaScript numbers are modelled as `Rat` (the computations in the claims
  are exact arithmetic: sums, differences, division, scaling by 100).
* Instants are epoch milliseconds (`Int`); `Date#toISOString` is modelled
  by `toISOString`, an injective encoding of the instant, since no claim
  depends on the concrete calendar text of the ISO-8601 string.
* An upstream HTTP interaction is an `Upstream` value: a response with a
  status and a parsed body (`none` body meaning `response.json()` threw),
  or a transport exception.  An environment `Env` maps each upstream
  identifier to the `Upstream` outcome its fetch would observe.
* The Vercel KV store is a record of the two keys the code uses.
* Handlers return, besides the HTTP response fields, the resulting store
  and the list of upstream fetch calls performed, so that claims of the
  form "performs no upstream calls / no store writes" are statable.
-/

/-- Models JavaScript `new Date(ms).toISOString()` as an injective encoding of
the epoch-millisecond instant `ms`.  No claim depends on the calendar text of
the ISO string, only on which instant it denotes. -/
def toISOString (ms : Int) : String := ("epoch-ms:") ++ toString ms

/-- Models JavaScript `s.startsWith(pre)`: `pre`'s character sequence is a
prefix of `s`'s character sequence (the semantics of Lean's own
`String.startsWith`, stated over the underlying character lists so that it
evaluates by `decide`). -/
def jsStartsWith (s pre : String) : Bool :=
  pre.data.isPrefixOf s.data

/-- Outcome of one upstream HTTP fetch, as observed inside the handlers'
`try { ... } catch { ... }` blocks: either a response carrying a status code
and a parsed JSON body (`none` body = `response.json()` threw), or a
transport exception raised by `fetch` itself. -/
inductive Upstream (α : Type) where
  | response (status : Nat) (body : Option α)
  | exn
deriving DecidableEq

/-- One record of the DeFiLlama historical-TVL response:
`{date: epochSeconds, tvl: number}`. -/
structure TvlRecord where
  date : Int
  tvl : Rat
deriving DecidableEq, Inhabited

/-- A normalized TVL point as produced by `fetchTvlData`:
`{date: isoString, tvl: number}`. -/
structure TvlPoint where
  date : String
  tvl : Rat
deriving DecidableEq, Inhabited

/-- A normalized price point as produced by `fetchPriceData`:
`{date: isoString, timestamp: epochMillis, price: number}`. -/
structure PricePoint where
  date : String
  timestamp : Int
  price : Rat
deriving DecidableEq, Inhabited

/-- Parsed body of the CoinGecko market-chart response `{prices: ...}`.
`none` models a body whose `prices` field is absent or null; `some l`
models `prices` being the array `l` of `[epochMillis, price]` pairs. -/
def PriceBody : Type := Option (List (Int × Rat))

/-- The pair of upstream identifiers of one `BLOCKCHAIN_MAPPING` entry. -/
structure ChainIds where
  defillama : String
  coingecko : String
deriving DecidableEq, Inhabited

/-- The upstream world: what each DeFiLlama chain id and each CoinGecko coin
id would answer if fetched. -/
structure Env where
  tvl : String → Upstream (List TvlRecord)
  price : String → Upstream PriceBody

/-- A record of one upstream HTTP call performed by a handler. -/
inductive FetchCall where
  | tvlCall (id : String)
  | priceCall (id : String)
deriving DecidableEq

/-- The merged dataset written to the KV store: chain name to TVL series and
chain name to price series, in loop insertion order. -/
structure Dataset where
  tvl_data : List (String × List TvlPoint)
  price_data : List (String × List PricePoint)
deriving DecidableEq

/-- The Vercel KV store as used by the code: the two keys
`blockchain_data` and `last_updated` (the latter identified with the
epoch-millisecond instant its ISO string denotes). -/
structure KVStore where
  blockchain_data : Option Dataset
  last_updated : Option Int
deriving DecidableEq

namespace UpdateData

/-- `BLOCKCHAIN_MAPPING` of `src/pages/api/update-data.js`, in its object
insertion order (which `Object.entries` preserves). -/
def BLOCKCHAIN_MAPPING : List (String × ChainIds) :=
  [ (("Aptos"), ⟨("aptos"), ("aptos")⟩)
  , (("Avalanche"), ⟨("Avalanche"), ("avalanche-2")⟩)
  , (("Core DAO"), ⟨("core"), ("coredaoorg")⟩)
  , (("Flow"), ⟨("flow"), ("flow")⟩)
  , (("Injective"), ⟨("injective"), ("injective-protocol")⟩)
  , (("Optimism"), ⟨("optimism"), ("optimism")⟩)
  , (("Polygon"), ⟨("polygon"), ("matic-network")⟩)
  , (("XRP/XRPL"), ⟨("XRPL"), ("ripple")⟩)
  , (("Sei"), ⟨("sei"), ("sei-network")⟩) ]

/-- `fetchTvlData` of `src/pages/api/update-data.js` applied to the upstream
outcome for its `blockchainId`: on status 200 with a parseable array body,
maps each record to `{date: new Date(item.date * 1000).toISOString(),
tvl: item.tvl}`; on any other status returns `[]`; a thrown `fetch` or
`json()` exception is caught and also yields `[]`. -/
def fetchTvlData (resp : Upstream (List TvlRecord)) : List TvlPoint :=
  match resp with
  | .exn => []
  | .response status body =>
    if status = 200 then
      match body with
      | some data => data.map (fun item => ⟨toISOString (item.date * 1000), item.tvl⟩)
      | none => []
    else []

/-- `fetchPriceData` of `src/pages/api/update-data.js` applied to the
upstream outcome for its `coinId`: on status 200 with a parseable body,
takes `data.prices || []` and maps each `[timestamp, price]` pair to
`{date: new Date(timestamp).toISOString(), timestamp, price}`; any other
status, or a thrown exception, yields `[]`. -/
def fetchPriceData (resp : Upstream PriceBody) : List PricePoint :=
  match resp with
  | .exn => []
  | .response status body =>
    if status = 200 then
      match body with
      | some data =>
        let prices := data.getD []
        prices.map (fun p => ⟨toISOString p.1, p.1, p.2⟩)
      | none => []
    else []

/-- The fetch loop of the refresh handler (lines 83-102): for each
`BLOCKCHAIN_MAPPING` entry in order, fetch TVL then price, accumulating
`tvlData`, `priceData`, and the trace of upstream calls performed. -/
def runAggregation (env : Env) :
    List (String × List TvlPoint) × List (String × List PricePoint) × List FetchCall :=
  BLOCKCHAIN_MAPPING.foldl
    (fun acc entry =>
      (acc.1 ++ [(entry.1, fetchTvlData (env.tvl entry.2.defillama))],
       acc.2.1 ++ [(entry.1, fetchPriceData (env.price entry.2.coingecko))],
       acc.2.2 ++ [FetchCall.tvlCall entry.2.defillama, FetchCall.priceCall entry.2.coingecko]))
    ([], [], [])

/-- Response body of the refresh endpoint: either the 401 error object
`{error: ...}` or the 200 success object `{success: ..., lastUpdated: ...}`. -/
inductive RefreshBody where
  | errorBody (error : String)
  | okBody (success : Bool) (lastUpdated : Int)
deriving DecidableEq

/-- Full observable outcome of one refresh-handler run: HTTP status, JSON
body, resulting KV store, and the upstream calls performed. -/
structure RefreshResult where
  status : Nat
  body : RefreshBody
  kv : KVStore
  calls : List FetchCall
deriving DecidableEq

/-- The `handler` of `src/pages/api/update-data.js`: rejects a missing or
non-`Bearer ` authorization header with 401 `{error: 'Unauthorized'}`
before any fetch or store write; otherwise runs the aggregation loop,
stores `blockchain_data` and `last_updated`, and answers 200
`{success: true, lastUpdated}`.  `now` is the instant `new Date()` reads. -/
def handler (authHeader : Option String) (store : KVStore) (env : Env) (now : Int) :
    RefreshResult :=
  match authHeader with
  | none => ⟨401, .errorBody ("Unauthorized"), store, []⟩
  | some a =>
    if ¬ jsStartsWith a ("Bearer ") then
      ⟨401, .errorBody ("Unauthorized"), store, []⟩
    else
      let r := runAggregation env
      let newData : Dataset := ⟨r.1, r.2.1⟩
      ⟨200, .okBody true now, ⟨some newData, some now⟩, r.2.2⟩

end UpdateData

namespace BlockchainData

/-- `BLOCKCHAIN_MAPPING` of the reader endpoint (`src/unnamed/part_000`,
served as `/api/blockchain-data`), in its object insertion order. -/
def BLOCKCHAIN_MAPPING : List (String × ChainIds) :=
  [ (("Aptos"), ⟨("aptos"), ("aptos")⟩)
  , (("Avalanche"), ⟨("Avalanche"), ("avalanche-2")⟩)
  , (("Core DAO"), ⟨("core"), ("coredaoorg")⟩)
  , (("Flow"), ⟨("flow"), ("flow")⟩)
  , (("Injective"), ⟨("injective"), ("injective-protocol")⟩)
  , (("Optimism"), ⟨("optimism"), ("optimism")⟩)
  , (("Polygon"), ⟨("polygon"), ("matic-network")⟩)
  , (("XRP/XRPL"), ⟨("XRPL"), ("ripple")⟩)
  , (("Sei"), ⟨("sei"), ("sei-network")⟩) ]

/-- `fetchTvlData` of the reader endpoint (`src/unnamed/part_000`),
textually identical to the refresher's copy: status 200 with a parseable
array body maps each record to an ISO date plus its TVL; anything else
(non-200, thrown `fetch`, thrown `json()`) yields `[]`. -/
def fetchTvlData (resp : Upstream (List TvlRecord)) : List TvlPoint :=
  match resp with
  | .exn => []
  | .response status body =>
    if status = 200 then
      match body with
      | some data => data.map (fun item => ⟨toISOString (item.date * 1000), item.tvl⟩)
      | none => []
    else []

/-- `fetchPriceData` of the reader endpoint (`src/unnamed/part_000`),
textually identical to the refresher's copy: status 200 with a parseable
body maps `data.prices || []` pairwise into price points; anything else
yields `[]`. -/
def fetchPriceData (resp : Upstream PriceBody) : List PricePoint :=
  match resp with
  | .exn => []
  | .response status body =>
    if status = 200 then
      match body with
      | some data =>
        let prices := data.getD []
        prices.map (fun p => ⟨toISOString p.1, p.1, p.2⟩)
      | none => []
    else []

/-- The fetch loop of the reader handler (lines 88-107), identical in form
to the refresher's loop. -/
def runAggregation (env : Env) :
    List (String × List TvlPoint) × List (String × List PricePoint) × List FetchCall :=
  BLOCKCHAIN_MAPPING.foldl
    (fun acc entry =>
      (acc.1 ++ [(entry.1, fetchTvlData (env.tvl entry.2.defillama))],
       acc.2.1 ++ [(entry.1, fetchPriceData (env.price entry.2.coingecko))],
       acc.2.2 ++ [FetchCall.tvlCall entry.2.defillama, FetchCall.priceCall entry.2.coingecko]))
    ([], [], [])

/-- Full observable outcome of one reader-handler run: HTTP status, the
response body fields `data` and `lastUpdated`, the resulting KV store, and
the upstream calls performed. -/
structure ReadResult where
  status : Nat
  data : Dataset
  lastUpdated : Int
  kv : KVStore
  calls : List FetchCall
deriving DecidableEq

/-- The `handler` of the reader endpoint (`src/unnamed/part_000`): if both
KV keys hold values and less than 3600000 ms have elapsed since
`last_updated`, answers 200 with the cached data, touching nothing;
otherwise runs the aggregation loop, overwrites both keys, and answers 200
with the fresh data.  `now` is the instant `new Date()` reads. -/
def handler (store : KVStore) (env : Env) (now : Int) : ReadResult :=
  let cachedHit : Option ReadResult :=
    match store.blockchain_data, store.last_updated with
    | some cachedData, some lastUpdated =>
      if now - lastUpdated < 3600000 then
        some ⟨200, cachedData, lastUpdated, store, []⟩
      else none
    | _, _ => none
  match cachedHit with
  | some r => r
  | none =>
    let r := runAggregation env
    let newData : Dataset := ⟨r.1, r.2.1⟩
    ⟨200, newData, now, ⟨some newData, some now⟩, r.2.2⟩

end BlockchainData

namespace BlockchainCard

/-- `formattedTvlData` of `src/components/BlockchainCard.js`: re-wraps each
point as `{date: new Date(item.date), tvl: item.tvl}`.  The `Date`
constructor is modelled as leaving the encoded date in place, since no
metric reads the date field; length, order and the `tvl` values are
preserved exactly as in the source. -/
def formattedTvlData (tvlData : List TvlPoint) : List TvlPoint :=
  tvlData.map (fun item => ⟨item.date, item.tvl⟩)

/-- The card-side shape of a price point after `formattedPriceData` drops
the `timestamp` field: `{date: new Date(item.date), price: item.price}`. -/
structure CardPricePoint where
  date : String
  price : Rat
deriving DecidableEq, Inhabited

/-- `formattedPriceData` of `src/components/BlockchainCard.js`: re-wraps
each point as `{date: new Date(item.date), price: item.price}`. -/
def formattedPriceData (priceData : List PricePoint) : List CardPricePoint :=
  priceData.map (fun item => ⟨item.date, item.price⟩)

/-- `currentTvl` (line 23): the last TVL value of the formatted series, or
0 if the series is empty. -/
def currentTvl (f : List TvlPoint) : Rat :=
  if f.length > 0 then (f.getD (f.length - 1) default).tvl else 0

/-- `monthAgoTvlIndex` (line 24): `length - 31` when the series has more
than 30 points, else clamped to 0. -/
def monthAgoTvlIndex (f : List TvlPoint) : Nat :=
  if f.length > 30 then f.length - 31 else 0

/-- `monthAgoTvl` (line 25): the TVL value at the lookback index, or 0 if
the series is empty. -/
def monthAgoTvl (f : List TvlPoint) : Rat :=
  if f.length > 0 then (f.getD (monthAgoTvlIndex f) default).tvl else 0

/-- `tvlMonthlyChange` (line 26): percentage change over the lookback
window, computed only when the lookback value is positive, else 0. -/
def tvlMonthlyChange (f : List TvlPoint) : Rat :=
  if monthAgoTvl f > 0 then ((currentTvl f - monthAgoTvl f) / monthAgoTvl f) * 100 else 0

/-- `currentPrice` (line 28): the last price of the formatted series, or 0
if the series is empty. -/
def currentPrice (f : List CardPricePoint) : Rat :=
  if f.length > 0 then (f.getD (f.length - 1) default).price else 0

/-- `monthAgoPriceIndex` (line 29): `length - 31` when the series has more
than 30 points, else clamped to 0. -/
def monthAgoPriceIndex (f : List CardPricePoint) : Nat :=
  if f.length > 30 then f.length - 31 else 0

/-- `monthAgoPrice` (line 30): the price at the lookback index, or 0 if the
series is empty. -/
def monthAgoPrice (f : List CardPricePoint) : Rat :=
  if f.length > 0 then (f.getD (monthAgoPriceIndex f) default).price else 0

/-- `priceMonthlyChange` (line 31): percentage change over the lookback
window, computed only when the lookback value is positive, else 0. -/
def priceMonthlyChange (f : List CardPricePoint) : Rat :=
  if monthAgoPrice f > 0 then
    ((currentPrice f - monthAgoPrice f) / monthAgoPrice f) * 100
  else 0

end BlockchainCard

/-- A fetch attempt that failed, as the handlers observe it: a transport or
parse exception, or a response whose status is not 200 (a 200 response whose
body could not be parsed counts as the caught parse exception). -/
def fetchFailed {α : Type} : Upstream α → Bool
  | Upstream.exn => true
  | Upstream.response status body => !(status == 200 && body.isSome)

/-- A concrete upstream world in which every fetch raises a transport
exception; used to instantiate universally quantified theorems. -/
def envAllFail : Env := ⟨fun _ => Upstream.exn, fun _ => Upstream.exn⟩

/-! ## Helper lemmas -/

/-- The `tvlData` object accumulated by the refresher's loop, entry by
entry over `BLOCKCHAIN_MAPPING`. -/
theorem UpdateData.runAggregation_tvl (env : Env) :
    (UpdateData.runAggregation env).1 =
      UpdateData.BLOCKCHAIN_MAPPING.map
        (fun e => (e.1, UpdateData.fetchTvlData (env.tvl e.2.defillama))) := rfl

/-- The `priceData` object accumulated by the refresher's loop, entry by
entry over `BLOCKCHAIN_MAPPING`. -/
theorem UpdateData.runAggregation_price (env : Env) :
    (UpdateData.runAggregation env).2.1 =
      UpdateData.BLOCKCHAIN_MAPPING.map
        (fun e => (e.1, UpdateData.fetchPriceData (env.price e.2.coingecko))) := rfl

/-- The `tvlData` object accumulated by the reader's loop, entry by entry
over `BLOCKCHAIN_MAPPING`. -/
theorem BlockchainData.reader_runAggregation_tvl (env : Env) :
    (BlockchainData.runAggregation env).1 =
      BlockchainData.BLOCKCHAIN_MAPPING.map
        (fun e => (e.1, BlockchainData.fetchTvlData (env.tvl e.2.defillama))) := rfl

/-- The `priceData` object accumulated by the reader's loop, entry by entry
over `BLOCKCHAIN_MAPPING`. -/
theorem BlockchainData.reader_runAggregation_price (env : Env) :
    (BlockchainData.runAggregation env).2.1 =
      BlockchainData.BLOCKCHAIN_MAPPING.map
        (fun e => (e.1, BlockchainData.fetchPriceData (env.price e.2.coingecko))) := rfl

/-- A failed TVL fetch yields the empty series (refresher's copy). -/
theorem UpdateData.fetchTvlData_failed {r : Upstream (List TvlRecord)}
    (h : fetchFailed r = true) : UpdateData.fetchTvlData r = [] := by
  cases r with
  | exn => rfl
  | response s b =>
    simp only [fetchFailed, Bool.not_eq_true', Bool.and_eq_false_iff] at h
    rcases h with h | h
    · have hs : s ≠ 200 := by simpa using h
      simp [UpdateData.fetchTvlData, hs]
    · cases b with
      | none => simp [UpdateData.fetchTvlData]
      | some v => simp at h

/-- A failed price fetch yields the empty series (refresher's copy). -/
theorem UpdateData.fetchPriceData_failed {r : Upstream PriceBody}
    (h : fetchFailed r = true) : UpdateData.fetchPriceData r = [] := by
  cases r with
  | exn => rfl
  | response s b =>
    simp only [fetchFailed, Bool.not_eq_true', Bool.and_eq_false_iff] at h
    rcases h with h | h
    · have hs : s ≠ 200 := by simpa using h
      simp [UpdateData.fetchPriceData, hs]
    · cases b with
      | none => simp [UpdateData.fetchPriceData]
      | some v => simp at h

/-- A failed TVL fetch yields the empty series (reader's copy, whose
fetcher is definitionally the refresher's). -/
theorem BlockchainData.reader_fetchTvlData_failed {r : Upstream (List TvlRecord)}
    (h : fetchFailed r = true) : BlockchainData.fetchTvlData r = [] :=
  UpdateData.fetchTvlData_failed h

/-- A failed price fetch yields the empty series (reader's copy). -/
theorem BlockchainData.reader_fetchPriceData_failed {r : Upstream PriceBody}
    (h : fetchFailed r = true) : BlockchainData.fetchPriceData r = [] :=
  UpdateData.fetchPriceData_failed h

/-- The card's `formattedTvlData` rebuilds each point from its own two
fields, so (by structure eta) it is the identity on the series. -/
theorem BlockchainCard.formattedTvlData_id (l : List TvlPoint) :
    BlockchainCard.formattedTvlData l = l :=
  List.map_id l

/-- `formattedPriceData` preserves the length of the series. -/
theorem BlockchainCard.formattedPriceData_length (l : List PricePoint) :
    (BlockchainCard.formattedPriceData l).length = l.length := by
  simp [BlockchainCard.formattedPriceData]

/-- On the cache-miss path (no complete fresh cache entry), the reader
handler runs the aggregation, overwrites both KV keys with the fresh
dataset and `now`, and answers 200 with the fresh data. -/
theorem BlockchainData.handler_miss (bd : Option Dataset) (lu : Option Int)
    (env : Env) (now : Int)
    (hmiss : ∀ d t, bd = some d → lu = some t → 3600000 ≤ now - t) :
    BlockchainData.handler ⟨bd, lu⟩ env now =
      ⟨200,
       ⟨(BlockchainData.runAggregation env).1, (BlockchainData.runAggregation env).2.1⟩,
       now,
       ⟨some ⟨(BlockchainData.runAggregation env).1, (BlockchainData.runAggregation env).2.1⟩,
        some now⟩,
       (BlockchainData.runAggregation env).2.2⟩ := by
  cases bd with
  | none => rfl
  | some d =>
    cases lu with
    | none => rfl
    | some t =>
      have h := hmiss d t rfl rfl
      have hnot : ¬ (now - t < 3600000) := by omega
      unfold BlockchainData.handler
      simp [hnot]

/-- With a well-formed bearer header, the refresher handler runs the
aggregation, overwrites both KV keys, and answers 200 with
`{success: true, lastUpdated: now}`. -/
theorem UpdateData.handler_authorized (a : String) (store : KVStore)
    (env : Env) (now : Int) (hauth : jsStartsWith a ("Bearer ") = true) :
    UpdateData.handler (some a) store env now =
      ⟨200, .okBody true now,
       ⟨some ⟨(UpdateData.runAggregation env).1, (UpdateData.runAggregation env).2.1⟩,
        some now⟩,
       (UpdateData.runAggregation env).2.2⟩ := by
  unfold UpdateData.handler
  simp [hauth]

/-! ## Claim theorems -/

/-- Claim C1: every run of the refresh routine, in either endpoint and
regardless of which per-chain fetches succeed or fail, produces `tvl_data`
and `price_data` maps whose keys are exactly the nine (pairwise distinct)
chain names of `BLOCKCHAIN_MAPPING`, and a failed fetch for a chain yields
the empty series under that chain's key rather than omitting the key or
aborting the refresh. -/
theorem claim_C1_dataset_keys_total (env : Env) :
    ((UpdateData.runAggregation env).1.map Prod.fst =
        UpdateData.BLOCKCHAIN_MAPPING.map Prod.fst ∧
     (UpdateData.runAggregation env).2.1.map Prod.fst =
        UpdateData.BLOCKCHAIN_MAPPING.map Prod.fst ∧
     (BlockchainData.runAggregation env).1.map Prod.fst =
        BlockchainData.BLOCKCHAIN_MAPPING.map Prod.fst ∧
     (BlockchainData.runAggregation env).2.1.map Prod.fst =
        BlockchainData.BLOCKCHAIN_MAPPING.map Prod.fst) ∧
    ((UpdateData.BLOCKCHAIN_MAPPING.map Prod.fst).Nodup ∧
     (UpdateData.BLOCKCHAIN_MAPPING.map Prod.fst).length = 9) ∧
    (∀ name ids, (name, ids) ∈ UpdateData.BLOCKCHAIN_MAPPING →
       (fetchFailed (env.tvl ids.defillama) = true →
          (name, ([] : List TvlPoint)) ∈ (UpdateData.runAggregation env).1 ∧
          (name, ([] : List TvlPoint)) ∈ (BlockchainData.runAggregation env).1) ∧
       (fetchFailed (env.price ids.coingecko) = true →
          (name, ([] : List PricePoint)) ∈ (UpdateData.runAggregation env).2.1 ∧
          (name, ([] : List PricePoint)) ∈ (BlockchainData.runAggregation env).2.1)) := by
  refine ⟨⟨rfl, rfl, rfl, rfl⟩, ⟨by decide, by decide⟩, ?_⟩
  intro name ids hmem
  constructor
  · intro hf
    constructor
    · rw [UpdateData.runAggregation_tvl]
      exact List.mem_map.mpr
        ⟨(name, ids), hmem, by simp [UpdateData.fetchTvlData_failed hf]⟩
    · rw [BlockchainData.reader_runAggregation_tvl]
      exact List.mem_map.mpr
        ⟨(name, ids), hmem, by simp [BlockchainData.reader_fetchTvlData_failed hf]⟩
  · intro hf
    constructor
    · rw [UpdateData.runAggregation_price]
      exact List.mem_map.mpr
        ⟨(name, ids), hmem, by simp [UpdateData.fetchPriceData_failed hf]⟩
    · rw [BlockchainData.reader_runAggregation_price]
      exact List.mem_map.mpr
        ⟨(name, ids), hmem, by simp [BlockchainData.reader_fetchPriceData_failed hf]⟩

/-- Witness for C1: in the world where every fetch raises, the "Flow" key
is still present in both endpoints' TVL maps, bound to the empty series. -/
theorem claim_C1_witness :
    (("Flow" : String), ([] : List TvlPoint)) ∈ (UpdateData.runAggregation envAllFail).1 ∧
    (("Flow" : String), ([] : List TvlPoint)) ∈ (BlockchainData.runAggregation envAllFail).1 :=
  (claim_C1_dataset_keys_total envAllFail).2.2
    ("Flow") ⟨("flow"), ("flow")⟩ (by decide) |>.1 (by decide)

/-- Claim C2: when the KV store holds both a dataset and a timestamp and
less than 3600000 ms have elapsed, the reader handler answers 200 with the
stored dataset and timestamp unchanged, performs no upstream call, and
leaves the store untouched. -/
theorem claim_C2_cache_hit (store : KVStore) (env : Env) (now t : Int)
    (d : Dataset) (hd : store.blockchain_data = some d)
    (ht : store.last_updated = some t) (hfresh : now - t < 3600000) :
    BlockchainData.handler store env now = ⟨200, d, t, store, []⟩ := by
  unfold BlockchainData.handler
  rw [hd, ht]
  simp [hfresh]

/-- Witness for C2: a concrete fresh cache entry is served back verbatim
with no calls and no writes. -/
theorem claim_C2_witness :
    BlockchainData.handler ⟨some ⟨[], []⟩, some 0⟩ envAllFail 5 =
      ⟨200, ⟨[], []⟩, 0, ⟨some ⟨[], []⟩, some 0⟩, []⟩ :=
  claim_C2_cache_hit ⟨some ⟨[], []⟩, some 0⟩ envAllFail 5 0 ⟨[], []⟩ rfl rfl (by decide)

/-- Claim C3: when the cache entry is incomplete or 3600000 ms or more have
elapsed, the reader handler runs the full aggregation loop (performing its
whole call trace), overwrites both KV keys with the fresh dataset and
`now`, and — whenever a complete previous entry existed — the newly stored
timestamp is at least the previously stored one. -/
theorem claim_C3_cache_miss (bd : Option Dataset) (lu : Option Int)
    (env : Env) (now : Int)
    (hmiss : ∀ d t, bd = some d → lu = some t → 3600000 ≤ now - t) :
    (BlockchainData.handler ⟨bd, lu⟩ env now).kv =
      ⟨some ⟨(BlockchainData.runAggregation env).1,
             (BlockchainData.runAggregation env).2.1⟩, some now⟩ ∧
    (BlockchainData.handler ⟨bd, lu⟩ env now).calls =
      (BlockchainData.runAggregation env).2.2 ∧
    (∀ d t, bd = some d → lu = some t → t ≤ now) := by
  rw [BlockchainData.handler_miss bd lu env now hmiss]
  refine ⟨rfl, rfl, ?_⟩
  intro d t hd ht
  have := hmiss d t hd ht
  omega

/-- Witness for C3: with a concrete stale entry (stored at 0, read at
3600000), the store is overwritten with the fresh dataset and timestamp,
the full trace of calls is performed, and 0 ≤ 3600000. -/
theorem claim_C3_witness :
    (BlockchainData.handler ⟨some ⟨[], []⟩, some 0⟩ envAllFail 3600000).kv =
      ⟨some ⟨(BlockchainData.runAggregation envAllFail).1,
             (BlockchainData.runAggregation envAllFail).2.1⟩, some 3600000⟩ ∧
    (BlockchainData.handler ⟨some ⟨[], []⟩, some 0⟩ envAllFail 3600000).calls =
      (BlockchainData.runAggregation envAllFail).2.2 ∧
    (0 : Int) ≤ 3600000 := by
  have h := claim_C3_cache_miss (some ⟨[], []⟩) (some 0) envAllFail 3600000
    (by intro d t hd ht; rw [Option.some_inj] at ht; omega)
  exact ⟨h.1, h.2.1, h.2.2 ⟨[], []⟩ 0 rfl rfl⟩

/-- Claim C4: a refresh request with a missing authorization header, or one
not starting with `Bearer `, gets 401 `{error: 'Unauthorized'}`, with no
upstream fetch performed and the KV store left unchanged. -/
theorem claim_C4_unauthorized (authHeader : Option String) (store : KVStore)
    (env : Env) (now : Int)
    (hbad : authHeader = none ∨
      ∀ a, authHeader = some a → jsStartsWith a ("Bearer ") = false) :
    UpdateData.handler authHeader store env now =
      ⟨401, .errorBody ("Unauthorized"), store, []⟩ := by
  cases authHeader with
  | none => rfl
  | some a =>
    rcases hbad with h | h
    · exact absurd h (by simp)
    · have hf := h a rfl
      unfold UpdateData.handler
      simp [hf]

/-- Witness for C4: a concrete non-bearer header is rejected with 401 and
touches nothing. -/
theorem claim_C4_witness :
    UpdateData.handler (some ("Basic abc")) ⟨none, none⟩ envAllFail 0 =
      ⟨401, .errorBody ("Unauthorized"), ⟨none, none⟩, []⟩ := by
  apply claim_C4_unauthorized
  refine Or.inr (fun a ha => ?_)
  rw [Option.some_inj] at ha
  subst ha
  decide

/-- Claim C5: for any identifier, a non-200 upstream status, a transport
exception (`fetch` throwing), or a parse exception (`response.json()`
throwing on a 200 response, modelled as a 200 response with no parsed
body) makes both fetchers of both endpoints return the empty series
without propagating an error, and the surrounding refresh still produces
an entry for every chain. -/
theorem claim_C5_fetch_errors (status : Nat) (bt : Option (List TvlRecord))
    (bp : Option PriceBody) (env : Env) (hs : status ≠ 200) :
    (UpdateData.fetchTvlData (Upstream.response status bt) = [] ∧
     UpdateData.fetchTvlData (Upstream.response 200 none) = [] ∧
     UpdateData.fetchTvlData Upstream.exn = [] ∧
     UpdateData.fetchPriceData (Upstream.response status bp) = [] ∧
     UpdateData.fetchPriceData (Upstream.response 200 none) = [] ∧
     UpdateData.fetchPriceData Upstream.exn = [] ∧
     BlockchainData.fetchTvlData (Upstream.response status bt) = [] ∧
     BlockchainData.fetchTvlData (Upstream.response 200 none) = [] ∧
     BlockchainData.fetchTvlData Upstream.exn = [] ∧
     BlockchainData.fetchPriceData (Upstream.response status bp) = [] ∧
     BlockchainData.fetchPriceData (Upstream.response 200 none) = [] ∧
     BlockchainData.fetchPriceData Upstream.exn = []) ∧
    (∀ name ids, (name, ids) ∈ UpdateData.BLOCKCHAIN_MAPPING →
       ∃ lt lp, (name, lt) ∈ (UpdateData.runAggregation env).1 ∧
         (name, lp) ∈ (UpdateData.runAggregation env).2.1) := by
  constructor
  · refine ⟨?_, rfl, rfl, ?_, rfl, rfl, ?_, rfl, rfl, ?_, rfl, rfl⟩ <;>
      simp [UpdateData.fetchTvlData, UpdateData.fetchPriceData,
        BlockchainData.fetchTvlData, BlockchainData.fetchPriceData, hs]
  · intro name ids hmem
    refine ⟨UpdateData.fetchTvlData (env.tvl ids.defillama),
            UpdateData.fetchPriceData (env.price ids.coingecko), ?_, ?_⟩
    · rw [UpdateData.runAggregation_tvl]
      exact List.mem_map.mpr ⟨(name, ids), hmem, rfl⟩
    · rw [UpdateData.runAggregation_price]
      exact List.mem_map.mpr ⟨(name, ids), hmem, rfl⟩

/-- Witness for C5: an HTTP 500 TVL response yields `[]`, and in a world
where every fetch fails the refresh still carries an entry for "Sei". -/
theorem claim_C5_witness :
    UpdateData.fetchTvlData (Upstream.response 500 none) = [] ∧
    (∃ lt lp, (("Sei" : String), lt) ∈ (UpdateData.runAggregation envAllFail).1 ∧
      (("Sei" : String), lp) ∈ (UpdateData.runAggregation envAllFail).2.1) :=
  ⟨(claim_C5_fetch_errors 500 none none envAllFail (by decide)).1.1,
   (claim_C5_fetch_errors 500 none none envAllFail (by decide)).2
     ("Sei") ⟨("sei"), ("sei-network")⟩ (by decide)⟩

/-- Claim C6: on an HTTP 200 response, the TVL fetcher maps each record's
epoch-seconds date to the ISO timestamp of `date * 1000` ms paired with its
TVL, and the price fetcher maps each `[timestamp, price]` pair to the point
`{date, timestamp, price}`; both outputs have the upstream sequence's
length and preserve its order (the i-th output comes from the i-th input,
for every index i). -/
theorem claim_C6_success_mapping (recs : List TvlRecord)
    (prices : List (Int × Rat)) :
    ((UpdateData.fetchTvlData (Upstream.response 200 (some recs))).length =
        recs.length ∧
     ∀ i : Nat, (UpdateData.fetchTvlData (Upstream.response 200 (some recs)))[i]? =
        (recs[i]?).map (fun item => ⟨toISOString (item.date * 1000), item.tvl⟩)) ∧
    ((UpdateData.fetchPriceData (Upstream.response 200 (some (some prices)))).length =
        prices.length ∧
     ∀ i : Nat, (UpdateData.fetchPriceData (Upstream.response 200 (some (some prices))))[i]? =
        (prices[i]?).map (fun p => ⟨toISOString p.1, p.1, p.2⟩)) := by
  refine ⟨⟨?_, ?_⟩, ⟨?_, ?_⟩⟩
  · simp [UpdateData.fetchTvlData]
  · intro i
    simp [UpdateData.fetchTvlData]
  · simp [UpdateData.fetchPriceData]
  · intro i
    simp [UpdateData.fetchPriceData]

/-- Claim C7: for non-empty series of at most 30 points, the 30-day-change
lookback index clamps to 0 (it never goes below the start of the series),
and a zero lookback value short-circuits the percentage computation to 0
instead of dividing by zero — for the TVL metrics and the price metrics of
the card alike. -/
theorem claim_C7_lookback_clamp (tvlData : List TvlPoint)
    (priceData : List PricePoint) (_htne : tvlData ≠ [])
    (htlen : tvlData.length ≤ 30) (_hpne : priceData ≠ [])
    (hplen : priceData.length ≤ 30) :
    (BlockchainCard.monthAgoTvlIndex (BlockchainCard.formattedTvlData tvlData) = 0 ∧
     BlockchainCard.monthAgoPriceIndex (BlockchainCard.formattedPriceData priceData) = 0) ∧
    (BlockchainCard.monthAgoTvl (BlockchainCard.formattedTvlData tvlData) = 0 →
       BlockchainCard.tvlMonthlyChange (BlockchainCard.formattedTvlData tvlData) = 0) ∧
    (BlockchainCard.monthAgoPrice (BlockchainCard.formattedPriceData priceData) = 0 →
       BlockchainCard.priceMonthlyChange (BlockchainCard.formattedPriceData priceData) = 0) := by
  rw [BlockchainCard.formattedTvlData_id]
  refine ⟨⟨?_, ?_⟩, ?_, ?_⟩
  · simp only [BlockchainCard.monthAgoTvlIndex]
    rw [if_neg (by omega)]
  · simp only [BlockchainCard.monthAgoPriceIndex,
      BlockchainCard.formattedPriceData_length]
    rw [if_neg (by omega)]
  · intro h0
    simp only [BlockchainCard.tvlMonthlyChange, h0]
    rw [if_neg (by norm_num)]
  · intro h0
    simp only [BlockchainCard.priceMonthlyChange, h0]
    rw [if_neg (by norm_num)]

/-- Witness for C7: a one-point TVL series (value 0) and a one-point price
series (value 0) clamp their lookback index to 0 and report a 0% change. -/
theorem claim_C7_witness :
    (BlockchainCard.monthAgoTvlIndex
        (BlockchainCard.formattedTvlData [⟨("d"), 0⟩]) = 0 ∧
     BlockchainCard.monthAgoPriceIndex
        (BlockchainCard.formattedPriceData [⟨("d"), 0, 0⟩]) = 0) ∧
    BlockchainCard.tvlMonthlyChange
        (BlockchainCard.formattedTvlData [⟨("d"), 0⟩]) = 0 ∧
    BlockchainCard.priceMonthlyChange
        (BlockchainCard.formattedPriceData [⟨("d"), 0, 0⟩]) = 0 := by
  have h := claim_C7_lookback_clamp [⟨("d"), 0⟩] [⟨("d"), 0, 0⟩]
    (by decide) (by decide) (by decide) (by decide)
  exact ⟨h.1, h.2.1 (by decide), h.2.2 (by decide)⟩

/-- Claim C8: for a 90-point TVL series whose last value is 150 and whose
31st-from-end value (index 59) is 120, the card selects lookback index
90 − 31 = 59 and reports a 30-day change of (150 − 120) / 120 × 100 = 25%. -/
theorem claim_C8_ninety_points (tvlData : List TvlPoint)
    (hlen : tvlData.length = 90)
    (hlast : (tvlData.getD 89 default).tvl = 150)
    (h31 : (tvlData.getD 59 default).tvl = 120) :
    BlockchainCard.monthAgoTvlIndex (BlockchainCard.formattedTvlData tvlData) = 59 ∧
    BlockchainCard.tvlMonthlyChange (BlockchainCard.formattedTvlData tvlData) = 25 := by
  rw [BlockchainCard.formattedTvlData_id]
  have hidx : BlockchainCard.monthAgoTvlIndex tvlData = 59 := by
    simp [BlockchainCard.monthAgoTvlIndex, hlen]
  have hcur : BlockchainCard.currentTvl tvlData = 150 := by
    simp only [BlockchainCard.currentTvl, hlen]
    rw [if_pos (by omega : (90 : Nat) > 0)]
    exact hlast
  have hmon : BlockchainCard.monthAgoTvl tvlData = 120 := by
    simp only [BlockchainCard.monthAgoTvl, hidx, hlen]
    rw [if_pos (by omega : (90 : Nat) > 0)]
    exact h31
  refine ⟨hidx, ?_⟩
  rw [BlockchainCard.tvlMonthlyChange, hcur, hmon]
  norm_num

/-- Witness for C8: the concrete 90-point series of 89 points at 120
followed by one point at 150 yields lookback index 59 and a 25% change. -/
theorem claim_C8_witness :
    BlockchainCard.monthAgoTvlIndex
        (BlockchainCard.formattedTvlData
          (List.replicate 89 (⟨("d"), 120⟩ : TvlPoint) ++ [⟨("d"), 150⟩])) = 59 ∧
    BlockchainCard.tvlMonthlyChange
        (BlockchainCard.formattedTvlData
          (List.replicate 89 (⟨("d"), 120⟩ : TvlPoint) ++ [⟨("d"), 150⟩])) = 25 :=
  claim_C8_ninety_points _ (by decide) (by decide) (by decide)

/-- Claim C9: the fetch-and-aggregate logic duplicated across the two
endpoints is equivalent — over any upstream world the reader's aggregation
equals the refresher's, and the dataset stored by the reader's cache-miss
path equals the one stored by an authorized refresher run (which the reader
also returns as its response data). -/
theorem claim_C9_duplicated_logic (env : Env) (a : String) (store : KVStore)
    (bd : Option Dataset) (lu : Option Int) (now now2 : Int)
    (hauth : jsStartsWith a ("Bearer ") = true)
    (hmiss : ∀ d t, bd = some d → lu = some t → 3600000 ≤ now2 - t) :
    BlockchainData.runAggregation env = UpdateData.runAggregation env ∧
    (BlockchainData.handler ⟨bd, lu⟩ env now2).kv.blockchain_data =
      (UpdateData.handler (some a) store env now).kv.blockchain_data ∧
    some (BlockchainData.handler ⟨bd, lu⟩ env now2).data =
      (UpdateData.handler (some a) store env now).kv.blockchain_data := by
  rw [BlockchainData.handler_miss bd lu env now2 hmiss,
      UpdateData.handler_authorized a store env now hauth]
  exact ⟨rfl, rfl, rfl⟩

/-- Witness for C9: at a concrete world, header, stores and instants, the
reader's miss path and the refresher store the same dataset. -/
theorem claim_C9_witness :
    BlockchainData.runAggregation envAllFail = UpdateData.runAggregation envAllFail ∧
    (BlockchainData.handler ⟨none, none⟩ envAllFail 2).kv.blockchain_data =
      (UpdateData.handler (some ("Bearer x")) ⟨none, none⟩ envAllFail 1).kv.blockchain_data ∧
    some (BlockchainData.handler ⟨none, none⟩ envAllFail 2).data =
      (UpdateData.handler (some ("Bearer x")) ⟨none, none⟩ envAllFail 1).kv.blockchain_data :=
  claim_C9_duplicated_logic envAllFail ("Bearer x") ⟨none, none⟩ none none 1 2
    (by decide) (by simp)

/-- Claim C10: a 200 price response whose body lacks a `prices` field (or
whose `prices` is null) makes the price fetcher of either endpoint return
the empty series (the `data.prices || []` fallback) instead of throwing or
producing malformed points. -/
theorem claim_C10_missing_prices_field :
    UpdateData.fetchPriceData (Upstream.response 200 (some none)) = [] ∧
    BlockchainData.fetchPriceData (Upstream.response 200 (some none)) = [] :=
  ⟨rfl, rfl⟩
